import Mathlib

/-!
Verification of the OPAQUE aPAKE reference implementation (Go).

This file shallowly embeds the parts of the code that the claims are
about: byte-string encodings, the prime-order-group abstraction (elements
represented by their discrete logarithm with respect to the base point),
the 3DH input-keying-material computation, the AKE key schedule, message
serialization, configuration (de)serialization, the server facade and the
test-only value-forcing hooks.

Bytes are modelled as lists of naturals; well-formedness (each entry
< 256) is carried as a hypothesis where it matters.
-/

namespace APake

/-- A byte string: a list of naturals, each intended to be < 256. -/
abbrev Bytes := List Nat

/-! ## Encoding

Modelled from the spec: the `internal/encoding` package is not among the
provided sources; §4.1 of the specification defines `I2OSP(n, w)` as the
big-endian `w`-byte encoding of `n` (failing when `n` does not fit —
callers below only use it on values that fit, which the theorems record
as hypotheses), `OS2IP` as the big-endian integer of a byte string,
`EncodeVector(b, w)` as `b` prefixed with its `w`-byte big-endian length,
and `Concat`/`Concat3` as byte-string concatenation. -/

/-- Big-endian `w`-byte encoding of `n` (reduced mod `256 ^ w`). -/
def I2OSP : Nat → Nat → Bytes
  | _, 0 => []
  | n, w + 1 => I2OSP (n / 256) w ++ [n % 256]

/-- Big-endian integer value of a byte string. -/
def OS2IP (b : Bytes) : Nat :=
  b.foldl (fun acc x => acc * 256 + x) 0

/-- Byte-string concatenation of two strings. -/
def Concat (a b : Bytes) : Bytes := a ++ b

/-- Byte-string concatenation of three strings. -/
def Concat3 (a b c : Bytes) : Bytes := a ++ b ++ c

/-- `EncodeVectorLen(b, w)`: `w`-byte big-endian length prefix, then `b`. -/
def EncodeVectorLen (b : Bytes) (w : Nat) : Bytes :=
  I2OSP b.length w ++ b

/-- `EncodeVector(b)`: 2-byte length prefix, then `b`. -/
def EncodeVector (b : Bytes) : Bytes := EncodeVectorLen b 2

/-- `SuffixString(b, s)`: append the ASCII bytes of tag `s` to `b`. -/
def SuffixString (b s : Bytes) : Bytes := b ++ s

/-- ASCII bytes of a string constant. -/
def strBytes (s : String) : Bytes := s.toList.map Char.toNat

theorem OS2IP_append_singleton (xs : Bytes) (x : Nat) :
    OS2IP (xs ++ [x]) = OS2IP xs * 256 + x := by
  simp [OS2IP, List.foldl_append]

/-- `OS2IP` inverts `I2OSP` up to reduction mod `256 ^ w`. -/
theorem OS2IP_I2OSP (w n : Nat) : OS2IP (I2OSP n w) = n % 256 ^ w := by
  induction w generalizing n with
  | zero => simp [I2OSP, OS2IP, Nat.mod_one]
  | succ w ih =>
      rw [I2OSP, OS2IP_append_singleton, ih, pow_succ', Nat.mod_mul]
      ring

theorem I2OSP_length (n w : Nat) : (I2OSP n w).length = w := by
  induction w generalizing n with
  | zero => simp [I2OSP]
  | succ w ih => simp [I2OSP, ih]

theorem I2OSP_lt (n w : Nat) : ∀ x ∈ I2OSP n w, x < 256 := by
  induction w generalizing n with
  | zero => simp [I2OSP]
  | succ w ih =>
      intro x hx
      rw [I2OSP] at hx
      rcases List.mem_append.1 hx with h | h
      · exact ih _ x h
      · simp only [List.mem_singleton] at h
        omega

/-! ## Group abstraction

The group library (an external collaborator per the spec) exposes a
prime-order group. We embed it with elements represented by their
discrete logarithm to the base point: an element is a natural `< q`
(`q` the group order), the base point is `1 % q`, `Element.Mult scalar`
multiplies the exponent by the scalar mod `q`, and an element serializes
as its `elemLen`-byte big-endian encoding.  Decoding validates (rejects
non-canonical byte strings), mirroring decode-with-validation. -/

/-- A group descriptor: order and element-encoding length. -/
structure GroupDesc where
  q : Nat
  elemLen : Nat
  deriving Repr, DecidableEq

/-- The base point, as an exponent. -/
def GroupDesc.base (g : GroupDesc) : Nat := 1 % g.q

/-- `element.Mult(scalar)`: scalar multiplication, on exponents. -/
def GroupDesc.mult (g : GroupDesc) (e s : Nat) : Nat := e * s % g.q

/-- `element.Bytes()`: fixed-width big-endian serialization. -/
def GroupDesc.serializeElement (g : GroupDesc) (e : Nat) : Bytes :=
  I2OSP e g.elemLen

/-- `g.NewElement().Decode(b)`: validated decoding; fails on a byte
string of the wrong length or whose value is not a canonical exponent. -/
def GroupDesc.decodeElement (g : GroupDesc) (b : Bytes) : Option Nat :=
  if b.length = g.elemLen ∧ OS2IP b < g.q then some (OS2IP b) else none

theorem decode_serialize (g : GroupDesc) (e : Nat)
    (he : e < g.q) (hq : g.q ≤ 256 ^ g.elemLen) :
    g.decodeElement (g.serializeElement e) = some e := by
  have hlt : e < 256 ^ g.elemLen := lt_of_lt_of_le he hq
  have hv : OS2IP (I2OSP e g.elemLen) = e := by
    rw [OS2IP_I2OSP]; exact Nat.mod_eq_of_lt hlt
  simp [GroupDesc.decodeElement, GroupDesc.serializeElement, I2OSP_length, hv, he]

/-! ## 3DH IKM — `src/internal/ake/3dh.go` -/

/-- The `selector` type of `src/internal/ake/3dh.go`: `client = true`,
`server = false`. -/
inductive Selector where
  | client
  | server
  deriving Repr, DecidableEq

/-- `k3dh`: three scalar multiplications, serialized and concatenated. -/
def k3dh (g : GroupDesc) (p1 s1 p2 s2 p3 s3 : Nat) : Bytes :=
  let e1 := g.mult p1 s1
  let e2 := g.mult p2 s2
  let e3 := g.mult p3 s3
  Concat3 (g.serializeElement e1) (g.serializeElement e2) (g.serializeElement e3)

/-- `decodeKeys`: decode the peer ephemeral public key and the peer
public key, failing if either does not decode. -/
def decodeKeys (g : GroupDesc) (peerEpk peerPk : Bytes) : Option (Nat × Nat) := do
  let epk ← g.decodeElement peerEpk
  let pk ← g.decodeElement peerPk
  return (epk, pk)

/-- `ikm`: the 3DH input keying material.  The client computes
`(epk^esk) ∥ (gpk^esk) ∥ (epk^secretKey)`; the server computes
`(epk^esk) ∥ (epk^secretKey) ∥ (gpk^esk)`. -/
def ikm (s : Selector) (g : GroupDesc) (esk secretKey : Nat)
    (peerEpk peerPublicKey : Bytes) : Option Bytes := do
  let (epk, gpk) ← decodeKeys g peerEpk peerPublicKey
  match s with
  | .client => return k3dh g epk esk gpk esk epk secretKey
  | .server => return k3dh g epk esk epk secretKey gpk esk

/-- C1 helper: both sides' decodes succeed on honestly generated keys. -/
theorem ikm_eval (g : GroupDesc) (sel : Selector) (esk sk : Nat) (a b : Nat)
    (ha : a < g.q) (hb : b < g.q) (hq : g.q ≤ 256 ^ g.elemLen) :
    ikm sel g esk sk (g.serializeElement a) (g.serializeElement b) =
      some (match sel with
            | .client => k3dh g a esk b esk a sk
            | .server => k3dh g a esk a sk b esk) := by
  cases sel <;>
    simp [ikm, decodeKeys, decode_serialize g _ ha hq, decode_serialize g _ hb hq]

end APake

namespace APake

/-- C1: with `epk_c = base × esk_c`, `epk_s = base × esk_s`,
`pk_c = base × sk_c`, `pk_s = base × sk_s`, the client-side IKM computed
from its own scalars and the server's serialized public keys equals the
server-side IKM computed from its own scalars and the client's
serialized public keys, byte for byte. -/
theorem C1_ikm_client_eq_server (g : GroupDesc) (esk_c esk_s sk_c sk_s : Nat)
    (hq : 0 < g.q) (hfit : g.q ≤ 256 ^ g.elemLen) :
    ikm .client g esk_c sk_c
        (g.serializeElement (g.mult g.base esk_s))
        (g.serializeElement (g.mult g.base sk_s)) =
    ikm .server g esk_s sk_s
        (g.serializeElement (g.mult g.base esk_c))
        (g.serializeElement (g.mult g.base sk_c)) := by
  have hm : ∀ x : Nat, g.mult g.base x < g.q := fun x => Nat.mod_lt _ hq
  rw [ikm_eval g .client esk_c sk_c _ _ (hm esk_s) (hm sk_s) hfit,
      ikm_eval g .server esk_s sk_s _ _ (hm esk_c) (hm sk_c) hfit]
  have key : ∀ x y : Nat, g.mult (g.mult g.base x) y = g.mult (g.mult g.base y) x := by
    intro x y
    simp only [GroupDesc.mult, GroupDesc.base]
    conv_lhs => rw [Nat.mod_mul_mod]
    conv_rhs => rw [Nat.mod_mul_mod]
    ring_nf
  simp only [k3dh, Option.some.injEq]
  rw [key esk_s esk_c, key sk_s esk_c, key esk_s sk_c]

/-- C1 witness: a concrete group (order 7, 1-byte elements) and concrete
scalars on which both sides' IKM evaluates to the same bytes. -/
theorem C1_ikm_client_eq_server_witness :
    ikm .client ⟨7, 1⟩ 2 4
        (GroupDesc.serializeElement ⟨7, 1⟩ (GroupDesc.mult ⟨7, 1⟩ (GroupDesc.base ⟨7, 1⟩) 3))
        (GroupDesc.serializeElement ⟨7, 1⟩ (GroupDesc.mult ⟨7, 1⟩ (GroupDesc.base ⟨7, 1⟩) 5)) =
    ikm .server ⟨7, 1⟩ 3 5
        (GroupDesc.serializeElement ⟨7, 1⟩ (GroupDesc.mult ⟨7, 1⟩ (GroupDesc.base ⟨7, 1⟩) 2))
        (GroupDesc.serializeElement ⟨7, 1⟩ (GroupDesc.mult ⟨7, 1⟩ (GroupDesc.base ⟨7, 1⟩) 4)) :=
  C1_ikm_client_eq_server ⟨7, 1⟩ 2 3 4 5 (by decide) (by decide)

end APake

namespace APake

/-! ## Configuration — `src/opaque.go`

Identifier constants.  `Mode` is `iota + 1`: `Internal = 1`,
`External = 2`.  Group identifiers mirror the ciphersuite identifiers of
the external group library (`RistrettoSha512 = 1`, `P256Sha256 = 3`,
`P384Sha512 = 4`, `P521Sha512 = 5`); hash identifiers mirror the external
hash registry (`SHA256 = 5`, `SHA512 = 7`); `Scrypt = 2` is the MHF
identifier.  Only their distinctness matters to the claims. -/

def Internal : Nat := 1

def External : Nat := 2

def RistrettoSha512 : Nat := 1

def P256Sha256 : Nat := 3

def P384Sha512 : Nat := 4

def P521Sha512 : Nat := 5

def SHA256 : Nat := 5

def SHA512 : Nat := 7

def Scrypt : Nat := 2

def confLength : Nat := 7

/-- Output size in bytes of the identified hash (external primitive:
the KDF, MAC and Hash wrappers of `internal` all report the output size
of the hash they are built from). -/
def hashOutputSize (id : Nat) : Nat :=
  if id = SHA256 then 32 else if id = SHA512 then 64 else 0

/-- `encoding.ScalarLength` (external group library table). -/
def ScalarLength (g : Nat) : Nat :=
  if g = RistrettoSha512 then 32
  else if g = P256Sha256 then 32
  else if g = P384Sha512 then 48
  else if g = P521Sha512 then 66
  else 0

/-- `encoding.PointLength` (external group library table). -/
def PointLength (g : Nat) : Nat :=
  if g = RistrettoSha512 then 32
  else if g = P256Sha256 then 33
  else if g = P384Sha512 then 49
  else if g = P521Sha512 then 67
  else 0

/-- The `Configuration` structure of `src/opaque.go`: group, KDF, MAC,
Hash and MHF identifiers, envelope mode, optional AKE context, and nonce
length. -/
structure Configuration where
  group : Nat
  kdf : Nat
  mac : Nat
  hash : Nat
  mhf : Nat
  mode : Nat
  context : Bytes := []
  nonceLen : Nat
  deriving Repr, DecidableEq

/-- `internal.Parameters`, with the function objects (KDF, MAC, Hash,
MHF) represented by their identifiers; their sizes are recovered through
`hashOutputSize`. -/
structure Parameters where
  kdf : Nat
  mac : Nat
  hash : Nat
  mhf : Nat
  nonceLen : Nat
  oprfPointLength : Nat
  akePointLength : Nat
  group : Nat
  oprf : Nat
  context : Bytes
  envelopeSize : Nat := 0
  deriving Repr, DecidableEq

/-- `envelopeSize` of `src/opaque.go`: nonce length plus MAC size, plus
the scalar length in External mode. -/
def envelopeSize (mode : Nat) (p : Parameters) : Nat :=
  let innerSize := if mode = External then ScalarLength p.group else 0
  p.nonceLen + hashOutputSize p.mac + innerSize

/-- `Configuration.toInternal` of `src/opaque.go`. -/
def Configuration.toInternal (c : Configuration) : Parameters :=
  let ip : Parameters :=
    { kdf := c.kdf
      mac := c.mac
      hash := c.hash
      mhf := c.mhf
      nonceLen := c.nonceLen
      oprfPointLength := PointLength c.group
      akePointLength := PointLength c.group
      group := c.group
      oprf := c.group
      context := c.context }
  { ip with envelopeSize := envelopeSize c.mode ip }

/-- `Configuration.Serialize` of `src/opaque.go`: the six identifier
bytes followed by `I2OSP(NonceLen, 1)`. -/
def Configuration.serialize (c : Configuration) : Bytes :=
  [c.group, c.kdf, c.mac, c.hash, c.mhf, c.mode, (I2OSP c.nonceLen 1).headD 0]

/-- Error kinds returned by the embedded operations. -/
inductive ProtoError where
  | invalidConfigurationLength
  | invalidClientMac
  deriving Repr, DecidableEq

/-- `DeserializeConfiguration` of `src/opaque.go`: rejects any input
whose length is not 7, otherwise reads the six identifier bytes and
`OS2IP` of the last byte, without validating the values. -/
def DeserializeConfiguration (encoded : Bytes) : Except ProtoError Configuration :=
  if encoded.length ≠ confLength then .error .invalidConfigurationLength
  else .ok
    { group := encoded.getD 0 0
      kdf := encoded.getD 1 0
      mac := encoded.getD 2 0
      hash := encoded.getD 3 0
      mhf := encoded.getD 4 0
      mode := encoded.getD 5 0
      nonceLen := OS2IP (encoded.drop 6) }

/-- `DefaultConfiguration` of `src/opaque.go`. -/
def DefaultConfiguration : Configuration :=
  { group := RistrettoSha512
    kdf := SHA512
    mac := SHA512
    hash := SHA512
    mhf := Scrypt
    mode := Internal
    nonceLen := 32 }

/-- `GetFakeEnvelope` of `src/opaque.go`: a zero byte array of the
configuration's envelope size (`make([]byte, l)` zero-initializes). -/
def GetFakeEnvelope (c : Configuration) : Bytes :=
  List.replicate c.toInternal.envelopeSize 0

/-! ## Server — `src/server.go` -/

/-- The AKE server state carried between `Init` and `Finish`:
the expected client MAC and the session secret. -/
structure AkeServerState where
  expectedClientMac : Bytes := []
  sessionSecret : Bytes := []
  deriving Repr, DecidableEq

/-- `ake.NewServer()`: a fresh, empty AKE state. -/
def AkeNewServer : AkeServerState := {}

/-- The `Server` structure of `src/server.go`. -/
structure Server where
  parameters : Parameters
  ake : AkeServerState
  deriving Repr, DecidableEq

/-- `NewServer` of `src/server.go`: a `nil` configuration falls back to
`DefaultConfiguration`. -/
def NewServer (p : Option Configuration) : Server :=
  let cfg := match p with
    | none => DefaultConfiguration
    | some c => c
  { parameters := cfg.toInternal, ake := AkeNewServer }

/-- The KE3 message (`src/message/login.go`): the client MAC. -/
structure KE3 where
  mac : Bytes
  deriving Repr, DecidableEq

/-- Modelled from the spec: `Ake.Finalize` — `internal/ake/server.go` is
not among the provided sources.  On `Finish(KE3)` the server
"constant-time-compares received client-mac to expected"; constant-time
equality of byte strings is byte-string equality. -/
def AkeFinalize (st : AkeServerState) (ke3 : KE3) : Bool :=
  ke3.mac == st.expectedClientMac

/-- `Server.Finish` of `src/server.go`: returns the invalid-client-mac
error when the AKE finalization rejects the MAC, `nil` (here `none`)
otherwise. -/
def Server.finish (s : Server) (ke3 : KE3) : Option ProtoError :=
  if ¬ AkeFinalize s.ake ke3 then some .invalidClientMac else none

end APake

namespace APake

/-- C3: every byte string of length exactly 7 deserializes successfully
into a `Configuration`, and serializing that configuration returns the
original bytes. -/
theorem C3_configuration_roundtrip (b : Bytes) (hlen : b.length = 7)
    (hb : ∀ x ∈ b, x < 256) :
    ∃ c, DeserializeConfiguration b = Except.ok c ∧ c.serialize = b := by
  rcases b with _ | ⟨b0, b⟩
  · simp at hlen
  rcases b with _ | ⟨b1, b⟩
  · simp at hlen
  rcases b with _ | ⟨b2, b⟩
  · simp at hlen
  rcases b with _ | ⟨b3, b⟩
  · simp at hlen
  rcases b with _ | ⟨b4, b⟩
  · simp at hlen
  rcases b with _ | ⟨b5, b⟩
  · simp at hlen
  rcases b with _ | ⟨b6, b⟩
  · simp at hlen
  have hnil : b = [] := by
    simp only [List.length_cons] at hlen
    exact List.length_eq_zero.mp (by omega)
  subst hnil
  have h6 : b6 < 256 := hb b6 (by simp)
  refine ⟨{ group := b0, kdf := b1, mac := b2, hash := b3, mhf := b4,
            mode := b5, nonceLen := OS2IP [b6] }, ?_, ?_⟩
  · rfl
  · simp [Configuration.serialize, OS2IP, I2OSP, Nat.mod_eq_of_lt h6]

/-- C3 witness: the concrete 7-byte encoding of the default
configuration round-trips. -/
theorem C3_configuration_roundtrip_witness :
    ∃ c, DeserializeConfiguration [1, 7, 7, 7, 2, 1, 32] = Except.ok c ∧
      c.serialize = [1, 7, 7, 7, 2, 1, 32] :=
  C3_configuration_roundtrip [1, 7, 7, 7, 2, 1, 32] (by decide) (by decide)

/-- C5: the derived envelope size is `NonceLen + MAC-size` in Internal
mode and `NonceLen + MAC-size + scalar-length` in External mode; it is
computed from the `Configuration` fields alone. -/
theorem C5_envelope_size (c : Configuration) :
    (c.mode = Internal →
      c.toInternal.envelopeSize = c.nonceLen + hashOutputSize c.mac) ∧
    (c.mode = External →
      c.toInternal.envelopeSize =
        c.nonceLen + hashOutputSize c.mac + ScalarLength c.group) := by
  constructor <;> intro h <;>
    simp [Configuration.toInternal, envelopeSize, h, Internal, External]

/-- C5 witness: the default configuration (Internal) has envelope size
`32 + 64`, and the same configuration switched to External mode has
envelope size `32 + 64 + 32`. -/
theorem C5_envelope_size_witness :
    DefaultConfiguration.toInternal.envelopeSize = 96 ∧
    ({ DefaultConfiguration with mode := External } : Configuration).toInternal.envelopeSize = 128 :=
  ⟨((C5_envelope_size DefaultConfiguration).1 rfl).trans (by decide),
   ((C5_envelope_size { DefaultConfiguration with mode := External }).2 rfl).trans (by decide)⟩

/-- C8: the fake envelope has exactly the envelope size derived from the
configuration (in its mode), and every byte of it is zero. -/
theorem C8_fake_envelope_zeroed (c : Configuration) :
    (GetFakeEnvelope c).length = envelopeSize c.mode c.toInternal ∧
    ∀ x ∈ GetFakeEnvelope c, x = 0 := by
  constructor
  · simp [GetFakeEnvelope, Configuration.toInternal, envelopeSize]
  · intro x hx
    exact (List.eq_of_mem_replicate hx)

/-- C10: `NewServer` applied to a `nil` configuration succeeds and
builds the server from `DefaultConfiguration`: Ristretto255/SHA-512
group, SHA-512 KDF, MAC and Hash, Scrypt MHF, Internal mode, nonce
length 32. -/
theorem C10_new_server_nil_defaults :
    NewServer none = NewServer (some DefaultConfiguration) ∧
    (NewServer none).parameters = DefaultConfiguration.toInternal ∧
    DefaultConfiguration =
      { group := RistrettoSha512, kdf := SHA512, mac := SHA512,
        hash := SHA512, mhf := Scrypt, mode := Internal, nonceLen := 32 } :=
  ⟨rfl, rfl, rfl⟩

/-- C2: after `Init` stored the expected client MAC in the AKE state,
`Server.Finish` accepts exactly the KE3 whose MAC equals it, and returns
the invalid-client-mac error on any KE3 whose MAC differs. -/
theorem C2_finish_accepts_iff_mac_matches (s : Server) (ke3 : KE3) :
    (s.finish ke3 = none ↔ ke3.mac = s.ake.expectedClientMac) ∧
    (ke3.mac ≠ s.ake.expectedClientMac → s.finish ke3 = some .invalidClientMac) := by
  constructor
  · constructor
    · intro h
      by_contra hne
      simp [Server.finish, AkeFinalize, beq_iff_eq, hne] at h
    · intro h
      simp [Server.finish, AkeFinalize, h]
  · intro h
    simp [Server.finish, AkeFinalize, beq_iff_eq, h]

/-- C2 witness: with expected MAC `[1, 2]`, the KE3 carrying `[0, 2]`
(bit 0 of the MAC flipped) is rejected with the invalid-client-mac
error. -/
theorem C2_finish_accepts_iff_mac_matches_witness :
    Server.finish
      { parameters := DefaultConfiguration.toInternal,
        ake := { expectedClientMac := [1, 2], sessionSecret := [] } }
      { mac := [0, 2] } = some .invalidClientMac :=
  (C2_finish_accepts_iff_mac_matches
      { parameters := DefaultConfiguration.toInternal,
        ake := { expectedClientMac := [1, 2], sessionSecret := [] } }
      { mac := [0, 2] }).2 (by decide)

end APake

namespace APake

/-! ## KDF abstraction and protocol tags

HKDF Extract/Expand are external primitives; we abstract them as an
arbitrary function record.  The tag constants are the fixed ASCII
constants of §6 of the specification (also listed in `src/ake/3dh.go`). -/

/-- An HKDF-style KDF: `extract salt ikm`, `expand secret info length`,
and the output size. -/
structure KDF where
  extract : Bytes → Bytes → Bytes
  expand : Bytes → Bytes → Nat → Bytes
  size : Nat

def labelPfx : Bytes := strBytes "OPAQUE "

def tagHandshake : Bytes := strBytes "handshake secret"

def tagSession : Bytes := strBytes "session secret"

def tagMacServer : Bytes := strBytes "server mac"

def tagMacClient : Bytes := strBytes "client mac"

def tagOprfKey : Bytes := strBytes "OprfKey"

def tagDeriveKeyPair : Bytes := strBytes "OPAQUE-DeriveKeyPair"

def tagCredentialResponsePad : Bytes := strBytes "CredentialResponsePad"

/-! ## AKE key schedule — `src/internal/ake/3dh.go` -/

/-- `buildLabel`: `I2OSP(length, 2) ∥ EncodeVectorLen("OPAQUE " ∥ label, 1)
∥ EncodeVectorLen(context, 1)`. -/
def buildLabel (length : Nat) (label context : Bytes) : Bytes :=
  Concat3 (I2OSP length 2)
    (EncodeVectorLen (labelPfx ++ label) 1)
    (EncodeVectorLen context 1)

/-- `expand`: `h.Expand(secret, hkdfLabel, h.Size())`. -/
def expand (h : KDF) (secret hkdfLabel : Bytes) : Bytes :=
  h.expand secret hkdfLabel h.size

/-- `expandLabel`: expand under the built label. -/
def expandLabel (h : KDF) (secret label context : Bytes) : Bytes :=
  expand h secret (buildLabel h.size label context)

/-- `deriveSecret` (an alias of `expandLabel` in the source). -/
def deriveSecret (h : KDF) (secret label context : Bytes) : Bytes :=
  expandLabel h secret label context

/-- The `macKeys` pair of `src/internal/ake/3dh.go`. -/
structure MacKeys where
  serverMacKey : Bytes
  clientMacKey : Bytes
  deriving Repr, DecidableEq

/-- `deriveKeys` of `src/internal/ake/3dh.go`: extract a PRK from the
IKM with empty salt, derive the handshake and session secrets under the
transcript context, then the two MAC keys from the handshake secret with
empty context. -/
def deriveKeys (h : KDF) (ikmBytes context : Bytes) : MacKeys × Bytes :=
  let prk := h.extract [] ikmBytes
  let handshakeSecret := deriveSecret h prk tagHandshake context
  let sessionSecret := deriveSecret h prk tagSession context
  ({ serverMacKey := expandLabel h handshakeSecret tagMacServer []
     clientMacKey := expandLabel h handshakeSecret tagMacClient [] },
   sessionSecret)

/-- The claim's label formula, written as the spec states it:
`label(x) = I2OSP(Hash-size, 2) ∥ EncodeVector("OPAQUE " ∥ x, 1) ∥
EncodeVector(context, 1)`. -/
def specLabel (hashSize : Nat) (x context : Bytes) : Bytes :=
  I2OSP hashSize 2 ++ (EncodeVectorLen (labelPfx ++ x) 1 ++ EncodeVectorLen context 1)

/-- The key schedule as the claim words it: `prk = Extract(no salt, ikm)`,
`handshake-secret = Expand(prk, label("handshake secret"), preamble)`,
`session-secret = Expand(prk, label("session secret"), preamble)`,
`server-mac-key = Expand(handshake-secret, label("server mac"), ∅)`,
`client-mac-key = Expand(handshake-secret, label("client mac"), ∅)`. -/
def deriveKeysSpec (h : KDF) (ikmBytes preamble : Bytes) : MacKeys × Bytes :=
  let prk := h.extract [] ikmBytes
  let handshakeSecret := h.expand prk (specLabel h.size tagHandshake preamble) h.size
  let sessionSecret := h.expand prk (specLabel h.size tagSession preamble) h.size
  ({ serverMacKey := h.expand handshakeSecret (specLabel h.size tagMacServer []) h.size
     clientMacKey := h.expand handshakeSecret (specLabel h.size tagMacClient []) h.size },
   sessionSecret)

/-! ## Credential and login messages -/

/-- The `CredentialResponse` of the login flow: evaluated element,
masking nonce and masked response. -/
structure CredentialResponse where
  data : Bytes
  maskingNonce : Bytes
  maskedResponse : Bytes
  deriving Repr, DecidableEq

/-- Modelled from the spec: `CredentialResponse.Serialize`
(`internal/message` is not among the provided sources); the KE2 wire
layout of §6 begins `evaluated-element ∥ masking-nonce ∥
masked-response`. -/
def CredentialResponse.serialize (m : CredentialResponse) : Bytes :=
  Concat3 m.data m.maskingNonce m.maskedResponse

/-- The KE2 message of `src/message/login.go`. -/
structure KE2 where
  credentialResponse : CredentialResponse
  nonceS : Bytes
  epkS : Bytes
  mac : Bytes
  deriving Repr, DecidableEq

/-- `KE2.Serialize` of `src/message/login.go`:
`Concat(CredentialResponse.Serialize, Concat3(NonceS, EpkS, Mac))`. -/
def KE2.serialize (m : KE2) : Bytes :=
  Concat m.credentialResponse.serialize (Concat3 m.nonceS m.epkS m.mac)

/-! ## Server OPRF response — `src/server.go` -/

/-- `oprf.Ciphersuite.DeriveKey`, modelled from the spec
(`internal/oprf` is not among the provided sources):
"`DeriveKey(seed, info) → scalar`: HKDF-style expansion into a group
scalar"; the expansion-to-scalar primitive is abstracted as
`hashToScalar`. -/
def OPRFDeriveKey (hashToScalar : Bytes → Bytes → Nat) (seed info : Bytes) : Nat :=
  hashToScalar seed info

/-- `oprf.Server.Evaluate`, modelled from the spec (`internal/oprf` is
not among the provided sources): "`Evaluate(server-key, blinded-element)
→ evaluated-element`: element × server-key", failing with `InvalidPoint`
when the blinded element does not decode. -/
def OPRFEvaluate (g : GroupDesc) (ku : Nat) (blinded : Bytes) : Option Bytes :=
  (g.decodeElement blinded).map fun e => g.serializeElement (g.mult e ku)

/-- `encoding.PadPoint`, modelled from the spec: left-zero-pad a
serialized element to the group's element length. -/
def PadPoint (b : Bytes) (g : GroupDesc) : Bytes :=
  List.replicate (g.elemLen - b.length) 0 ++ b

/-- Bytewise XOR (truncating to the shorter argument). -/
def xorBytes (a b : Bytes) : Bytes :=
  a.zipWith (fun x y => x ^^^ y) b

/-- `Parameters.MaskResponse`, modelled from the spec (not among the
provided sources): `mask = Expand(masking-key, masking-nonce ∥
"CredentialResponsePad", length(clear))`; `masked = clear XOR mask`. -/
def maskResponse (kdf : KDF) (maskingKey nonce clear : Bytes) : Bytes :=
  let mask := kdf.expand maskingKey (SuffixString nonce tagCredentialResponsePad) clear.length
  xorBytes clear mask

/-- The server context needed by the OPRF response path of
`src/server.go`: the KDF, the expansion-to-scalar primitive, the group,
`encoding.ScalarLength[group]` and the nonce length. -/
structure ServerCtx where
  kdf : KDF
  hashToScalar : Bytes → Bytes → Nat
  group : GroupDesc
  scalarLen : Nat
  nonceLen : Nat

/-- `Server.evaluate` of `src/server.go`: derive the per-user OPRF key
from the seed and evaluate the blinded element under it. -/
def ServerCtx.evaluate (s : ServerCtx) (seed blinded : Bytes) : Option Bytes :=
  let ku := OPRFDeriveKey s.hashToScalar seed tagDeriveKeyPair
  OPRFEvaluate s.group ku blinded

/-- `Server.oprfResponse` of `src/server.go`: the per-user seed is
`Expand(oprf-seed, credential-identifier ∥ "OprfKey", scalar-length)`. -/
def ServerCtx.oprfResponse (s : ServerCtx) (oprfSeed credentialIdentifier element : Bytes) :
    Option Bytes :=
  let seed := s.kdf.expand oprfSeed (SuffixString credentialIdentifier tagOprfKey) s.scalarLen
  s.evaluate seed element

/-- The per-user OPRF key as a function of the oprf-seed and the
credential identifier alone. -/
def ServerCtx.oprfKey (s : ServerCtx) (oprfSeed credentialIdentifier : Bytes) : Nat :=
  OPRFDeriveKey s.hashToScalar
    (s.kdf.expand oprfSeed (SuffixString credentialIdentifier tagOprfKey) s.scalarLen)
    tagDeriveKeyPair

/-- The `RegistrationResponse` message. -/
structure RegistrationResponse where
  data : Bytes
  pks : Bytes
  deriving Repr, DecidableEq

/-- `Server.RegistrationResponse` of `src/server.go`. -/
def ServerCtx.registrationResponse (s : ServerCtx)
    (reqData serverPublicKey credentialIdentifier oprfSeed : Bytes) :
    Option RegistrationResponse :=
  (s.oprfResponse oprfSeed credentialIdentifier reqData).map fun z =>
    { data := PadPoint z s.group, pks := serverPublicKey }

/-- `Server.credentialResponse` of `src/server.go` (the credential
response inside `Init`).  `rng` stands for the fresh random bytes drawn
when no test masking nonce is forced. -/
def ServerCtx.credentialResponse (s : ServerCtx) (rng : Bytes)
    (reqData serverPublicKey envelope maskingKey credentialIdentifier oprfSeed
     maskingNonce : Bytes) : Option CredentialResponse :=
  (s.oprfResponse oprfSeed credentialIdentifier reqData).map fun z =>
    let maskingNonce := if maskingNonce.length = 0 then rng else maskingNonce
    let clear := Concat serverPublicKey envelope
    let maskedResponse := maskResponse s.kdf maskingKey maskingNonce clear
    { data := PadPoint z s.group
      maskingNonce := maskingNonce
      maskedResponse := maskedResponse }

/-! ## Test-only value-forcing hooks -/

/-- `setValues` of `src/internal/ake/3dh.go`.  It is stateless: the
forced `scalar` is used whenever non-nil, the forced `nonce` whenever
non-empty.  `rngScalar` and `rngNonce` stand for the fresh random values
drawn otherwise; `nonceLen` is the length `rngNonce` would be drawn
with. -/
def setValues (rngScalar : Nat) (rngNonce : Bytes) (scalar : Option Nat)
    (nonce : Bytes) (nonceLen : Nat) : Nat × Bytes :=
  let s := match scalar with
    | some sc => sc
    | none => rngScalar
  let n := if nonce.length = 0 then rngNonce else nonce
  (s, n)

/-- The `Ake` state of `src/ake/3dh.go` (the fields the hook touches). -/
structure Ake where
  esk : Option Nat := none
  epk : Option Nat := none
  deriving Repr, DecidableEq

/-- `Ake.Initialize` of `src/ake/3dh.go`: set `Esk` (from the forced
scalar, else fresh randomness) only when not already set, recompute
`Epk`, and return the forced nonce when one is supplied, fresh
randomness otherwise. -/
def Ake.initValues (g : GroupDesc) (a : Ake) (rngScalar : Nat) (rngNonce : Bytes)
    (scalar : Option Nat) (nonce : Option Bytes) (nonceLen : Nat) : Ake × Bytes :=
  let esk := match a.esk with
    | some e => e
    | none =>
        match scalar with
        | some sc => sc
        | none => rngScalar
  let a : Ake := { esk := some esk, epk := some (g.mult g.base esk) }
  let n := match nonce with
    | some nv => nv
    | none => rngNonce
  (a, n)

end APake

namespace APake

/-- C6: the AKE key schedule equals, for every KDF, IKM and preamble,
the spec's formula: `prk = Extract(no salt, ikm)`, handshake and session
secrets expanded from `prk` under `label(x)` with the preamble as label
context, and the two MAC keys expanded from the handshake secret under
`label(x)` with empty context, where `label(x) = I2OSP(Hash-size, 2) ∥
EncodeVector("OPAQUE " ∥ x, 1) ∥ EncodeVector(context, 1)`. -/
theorem C6_key_schedule (h : KDF) (ikmBytes preamble : Bytes) :
    deriveKeys h ikmBytes preamble = deriveKeysSpec h ikmBytes preamble := by
  simp [deriveKeys, deriveKeysSpec, deriveSecret, expandLabel, expand,
    buildLabel, specLabel, Concat3, List.append_assoc]

/-- C7: the serialization of a KE2 message is exactly
`evaluated-element ∥ masking-nonce ∥ masked-response ∥ server-nonce ∥
server-ephemeral-public-key ∥ server-mac`, with no other bytes. -/
theorem C7_ke2_wire_layout (m : KE2) :
    m.serialize =
      m.credentialResponse.data ++ m.credentialResponse.maskingNonce ++
        m.credentialResponse.maskedResponse ++ m.nonceS ++ m.epkS ++ m.mac := by
  simp [KE2.serialize, CredentialResponse.serialize, Concat, Concat3,
    List.append_assoc]

/-- C4: the per-user OPRF key derivation is deterministic.  The OPRF
response evaluates the blinded element under a key that is a function of
the oprf-seed and credential identifier alone; the evaluated element of
the credential response inside `Init` is unchanged across two runs with
different randomness, forced masking nonces, public keys, envelopes and
masking keys; and it coincides with the evaluated element of
`RegistrationResponse` for the same seed, identifier and blinded
element. -/
theorem C4_oprf_key_deterministic (s : ServerCtx)
    (oprfSeed credId blinded rng rng1 rng2 spk spk1 spk2 env env1 env2
     mk mk1 mk2 mn mn1 mn2 : Bytes) :
    s.oprfResponse oprfSeed credId blinded =
      OPRFEvaluate s.group (s.oprfKey oprfSeed credId) blinded ∧
    (s.credentialResponse rng1 blinded spk1 env1 mk1 credId oprfSeed mn1).map
        (fun r => r.data) =
      (s.credentialResponse rng2 blinded spk2 env2 mk2 credId oprfSeed mn2).map
        (fun r => r.data) ∧
    (s.registrationResponse blinded spk credId oprfSeed).map (fun r => r.data) =
      (s.credentialResponse rng blinded spk env mk credId oprfSeed mn).map
        (fun r => r.data) := by
  refine ⟨rfl, ?_, ?_⟩ <;>
    cases h : s.oprfResponse oprfSeed credId blinded <;>
      simp [ServerCtx.credentialResponse, ServerCtx.registrationResponse, h]

/-- C9: evaluating the hooks at a second call shows it does have an
effect.  `Ake.Initialize` is first called forcing scalar 5 and nonce
`[3]` (group of order 7); the second call, forcing scalar 6 and nonce
`[9]`, returns the newly supplied nonce `[9]` (not the previous `[3]`),
while keeping `esk = 5`; and the stateless `setValues`, re-called with
scalar 6 and nonce `[4]`, returns the newly supplied values. -/
theorem C9_hooks_second_call_has_effect :
    (Ake.initValues ⟨7, 1⟩
        ((Ake.initValues ⟨7, 1⟩ {} 0 [] (some 5) (some [3]) 32).1)
        0 [] (some 6) (some [9]) 32).2 = [9] ∧
    (Ake.initValues ⟨7, 1⟩
        ((Ake.initValues ⟨7, 1⟩ {} 0 [] (some 5) (some [3]) 32).1)
        0 [] (some 6) (some [9]) 32).1.esk = some 5 ∧
    setValues 0 [] (some 6) [4] 32 = (6, [4]) :=
  ⟨rfl, rfl, rfl⟩

end APake
